import Mathlib

/-!
Verification of the task-exchange protocol and agent-discovery contract of
the `a2a_samples` client/server pair (`tell_time_server.py` / `time_client.py`)
and of the `get_weather` lookup tool (`google_adk/agent_team/weather_agent.py`).

The embedding models JSON payloads as an inductive `JValue`, Python dict/list
subscripting (including the exceptions `KeyError`, `IndexError`, `TypeError`
and their `str(e)` renderings) as total Lean functions returning `Except`,
and the Flask handlers as pure functions from the parsed request (plus a
clock value for `datetime.now()`) to an HTTP status code and response body.
-/

/-- JSON-like values as produced by Python's `json` module: `null`, booleans,
numbers (integral numbers only: the payloads under study carry no floats),
strings, arrays, and objects as ordered key/value lists. -/
inductive JValue where
  | null : JValue
  | bool (b : Bool) : JValue
  | num (n : Int) : JValue
  | str (s : String) : JValue
  | arr (xs : List JValue) : JValue
  | obj (fields : List (String × JValue)) : JValue

/-- Lookup of a key in an object's field list with Python-dict semantics:
when a key occurs several times (possible in raw JSON text), the **last**
binding wins, as in `dict` construction by Python's JSON decoder. -/
def lookupLast : List (String × JValue) → String → Option JValue
  | [], _ => none
  | (k', v) :: rest, k =>
    match lookupLast rest k with
    | some r => some r
    | none => if k' = k then some v else none

/-- The Python exceptions that subscripting can raise in `handle_task`,
each carrying what `str(e)` renders for it. -/
inductive PyErr where
  | keyError (k : String) : PyErr
  | keyErrorNum (n : Nat) : PyErr
  | indexError (msg : String) : PyErr
  | typeError (msg : String) : PyErr

/-- `str(e)` for the exceptions above: `str(KeyError('id')) = "'id'"`,
`str(KeyError(0)) = "0"`, and `IndexError`/`TypeError` render their message. -/
def pyErrStr : PyErr → String
  | .keyError k => "'" ++ k ++ "'"
  | .keyErrorNum n => toString n
  | .indexError msg => msg
  | .typeError msg => msg

/-- Python subscripting `v[k]` with a string key `k`: dict lookup
(raising `KeyError` when missing), `TypeError` on every other value,
with the messages CPython produces. -/
def pyGetStr : JValue → String → Except PyErr JValue
  | .obj fields, k =>
    match lookupLast fields k with
    | some v => .ok v
    | none => .error (.keyError k)
  | .arr _, _ => .error (.typeError "list indices must be integers or slices, not str")
  | .str _, _ => .error (.typeError "string indices must be integers, not 'str'")
  | .num _, _ => .error (.typeError "'int' object is not subscriptable")
  | .bool _, _ => .error (.typeError "'bool' object is not subscriptable")
  | .null, _ => .error (.typeError "'NoneType' object is not subscriptable")

/-- Python subscripting `v[i]` with a non-negative integer literal `i`:
list indexing (raising `IndexError` when out of range), string indexing
(yielding a one-character string), `KeyError i` on a dict whose keys are
all strings (the only dicts JSON can produce), `TypeError` otherwise. -/
def pyGetIdx : JValue → Nat → Except PyErr JValue
  | .arr xs, i =>
    match xs.get? i with
    | some v => .ok v
    | none => .error (.indexError "list index out of range")
  | .obj _, i => .error (.keyErrorNum i)
  | .str s, i =>
    match s.data.get? i with
    | some c => .ok (.str (String.mk [c]))
    | none => .error (.indexError "string index out of range")
  | .num _, _ => .error (.typeError "'int' object is not subscriptable")
  | .bool _, _ => .error (.typeError "'bool' object is not subscriptable")
  | .null, _ => .error (.typeError "'NoneType' object is not subscriptable")

/-- The clock value read by `datetime.now()`, split into the fields the
format string `%Y-%m-%d %H:%M:%S` prints. -/
structure DateTime where
  year : Nat
  month : Nat
  day : Nat
  hour : Nat
  minute : Nat
  second : Nat

/-- The two decimal digits of `n % 100`, as printed by the zero-padding
directives `%m`, `%d`, `%H`, `%M`, `%S` (always two digits for the
in-range values `datetime` can hold). -/
def twoDigits (n : Nat) : List Char :=
  [Nat.digitChar (n / 10 % 10), Nat.digitChar (n % 10)]

/-- The four decimal digits of `n % 10000`, as `%Y` prints every year a
live `datetime.now()` call can return (1000 ≤ year ≤ 9999). -/
def fourDigits (n : Nat) : List Char :=
  [Nat.digitChar (n / 1000 % 10), Nat.digitChar (n / 100 % 10),
   Nat.digitChar (n / 10 % 10), Nat.digitChar (n % 10)]

/-- `datetime.now().strftime('%Y-%m-%d %H:%M:%S')` on the clock value `t`. -/
def strftimeYmdHMS (t : DateTime) : String :=
  String.mk (fourDigits t.year ++ ['-'] ++ twoDigits t.month ++ ['-'] ++ twoDigits t.day
    ++ [' '] ++ twoDigits t.hour ++ [':'] ++ twoDigits t.minute ++ [':'] ++ twoDigits t.second)

/-- The reply text the server builds:
`reply_text = f"Current time is: {current_time}"`. -/
def replyText (t : DateTime) : String :=
  "Current time is: " ++ strftimeYmdHMS t

/-- The field extraction performed inside the `try` block of `handle_task`:
`task_id = data['id']`, then `user_message = data['message']['parts'][0]['text']`,
returning the task id, the message object, and the text, or the first
exception raised. -/
def extractTaskFields (data : JValue) : Except PyErr (JValue × JValue × JValue) :=
  match pyGetStr data "id" with
  | .error e => .error e
  | .ok task_id =>
    match pyGetStr data "message" with
    | .error e => .error e
    | .ok msg =>
      match pyGetStr msg "parts" with
      | .error e => .error e
      | .ok parts =>
        match pyGetIdx parts 0 with
        | .error e => .error e
        | .ok part0 =>
          match pyGetStr part0 "text" with
          | .error e => .error e
          | .ok text => .ok (task_id, msg, text)

/-- The body of a POST to `/tasks/send`, as Flask's request object exposes
it to `handle_task`:
`notJson` — the Content-Type is not JSON (`request.is_json` is false);
`badJson` — JSON Content-Type but the bytes fail to parse (the property
`request.json` raises `BadRequest`);
`jsonNull` — the body parses to `None` (literal `null`);
`json v` — the body parses to the value `v`. -/
inductive ReqBody where
  | notJson : ReqBody
  | badJson : ReqBody
  | jsonNull : ReqBody
  | json (v : JValue) : ReqBody

/-- A response body: either JSON produced through `jsonify`, or an HTML
error page produced by Flask's default `HTTPException` handling. -/
inductive RespBody where
  | json (v : JValue) : RespBody
  | html (s : String) : RespBody

/-- An HTTP response: status code plus body. -/
structure HttpResponse where
  code : Nat
  body : RespBody

/-- Modelled from Flask/Werkzeug (third-party, not in this repository):
when `request.json` cannot parse a body sent with a JSON Content-Type it
raises `werkzeug.exceptions.BadRequest`, which Flask's default error
handling turns into a 400 response whose body is Werkzeug's HTML error
page — not the handler's JSON envelope. The exact page text varies by
version; this constant is a representative rendering. -/
def flaskBadRequestPage : String :=
  "<!doctype html>\n<html lang=en>\n<title>400 Bad Request</title>\n<h1>Bad Request</h1>\n<p>Failed to decode JSON object: Expecting value: line 1 column 1 (char 0)</p>\n"

/-- `jsonify({'status': 'error', 'message': m})`. -/
def errorEnvelope (m : String) : JValue :=
  .obj [("status", .str "error"), ("message", .str m)]

/-- The agent reply message the server appends:
`{'role': 'agent', 'parts': [{'text': reply_text}], 'metadata': {}}`. -/
def agentReplyMsg (now : DateTime) : JValue :=
  .obj [("role", .str "agent"),
        ("parts", .arr [.obj [("text", .str (replyText now))]]),
        ("metadata", .obj [])]

/-- The success envelope the server returns: status, echoed id, and the
original message followed by the agent reply. -/
def successEnvelope (task_id msg : JValue) (now : DateTime) : JValue :=
  .obj [("status", .str "success"),
        ("id", task_id),
        ("messages", .arr [msg, agentReplyMsg now])]

/-- The `/tasks/send` handler `handle_task`, as a function of the parsed
request body and of the clock value `datetime.now()` reads. -/
def handle_task (body : ReqBody) (now : DateTime) : HttpResponse :=
  match body with
  | .notJson => ⟨400, .json (errorEnvelope "Invalid JSON format")⟩
  | .badJson => ⟨400, .html flaskBadRequestPage⟩
  | .jsonNull => ⟨400, .json (errorEnvelope "Request body is empty")⟩
  | .json data =>
    match extractTaskFields data with
    | .error e => ⟨400, .json (errorEnvelope ("Invalid task format: " ++ pyErrStr e))⟩
    | .ok (task_id, msg, _text) => ⟨200, .json (successEnvelope task_id msg now)⟩

/-- The agent card served by `GET /.well-known/agent.json`. -/
def agentInfo : JValue :=
  .obj [("name", .str "Time Teller"),
        ("description", .str "An agent that tells the current time based on the provided timezone."),
        ("url", .str "http://localhost:5000/tell_time"),
        ("capabilities", .obj [("streaming", .bool false), ("pushNotifications", .bool false)]),
        ("version", .str "1.0.0")]

/-- The discovery handler `agent_card`: it reads no request data and no
state, so it is a function of the (unused) call; the parameter records
that every call, whatever its position in time, gets the same response. -/
def agent_card (_call : Nat) : HttpResponse :=
  ⟨200, .json agentInfo⟩

/-! ### Deterministic JSON rendering (`jsonify`)

`jsonify` serializes the Python value deterministically; byte-identity of
two discovery responses reduces to this function applied to equal values.
The agent card contains no characters needing escapes, so a minimal
escaper (quote and backslash) is faithful on every string it serializes. -/

/-- Escape of a character inside a JSON string literal (quote and
backslash; the payloads under study contain no control characters). -/
def escapeChar (c : Char) : List Char :=
  if c = '"' then ['\\', '"']
  else if c = '\\' then ['\\', '\\']
  else [c]

/-- Escape of a whole string body. -/
def escapeString (s : String) : String :=
  String.mk (s.data.flatMap escapeChar)

mutual

/-- Deterministic JSON rendering of a value. -/
def serializeJValue : JValue → String
  | .null => "null"
  | .bool b => if b then "true" else "false"
  | .num n => toString n
  | .str s => "\"" ++ escapeString s ++ "\""
  | .arr xs => "[" ++ serializeArr xs ++ "]"
  | .obj fs => "\x7b" ++ serializeObj fs ++ "\x7d"

/-- Rendering of array elements, comma-separated. -/
def serializeArr : List JValue → String
  | [] => ""
  | [x] => serializeJValue x
  | x :: y :: rest => serializeJValue x ++ ", " ++ serializeArr (y :: rest)

/-- Rendering of object fields, comma-separated. -/
def serializeObj : List (String × JValue) → String
  | [] => ""
  | [(k, v)] => "\"" ++ escapeString k ++ "\": " ++ serializeJValue v
  | (k, v) :: q :: rest =>
    "\"" ++ escapeString k ++ "\": " ++ serializeJValue v ++ ", " ++ serializeObj (q :: rest)

end

/-- The bytes a response puts on the wire: status code and rendered body. -/
def renderResponse (r : HttpResponse) : Nat × String :=
  match r.body with
  | .json v => (r.code, serializeJValue v)
  | .html s => (r.code, s)

/-! ### Response accessors used by the claims -/

/-- The `status` field of a JSON response body, when present. -/
def bodyStatusField (b : RespBody) : Option JValue :=
  match b with
  | .json v =>
    match v with
    | .obj fs => lookupLast fs "status"
    | _ => none
  | .html _ => none

/-- The `message` field of a JSON response body, when present. -/
def bodyMessageField (b : RespBody) : Option JValue :=
  match b with
  | .json v =>
    match v with
    | .obj fs => lookupLast fs "message"
    | _ => none
  | .html _ => none

/-- The `id` field of a JSON response body, when present. -/
def bodyIdField (b : RespBody) : Option JValue :=
  match b with
  | .json v =>
    match v with
    | .obj fs => lookupLast fs "id"
    | _ => none
  | .html _ => none

/-- The `messages` list of a JSON response body, when present. -/
def bodyMessages (b : RespBody) : Option (List JValue) :=
  match b with
  | .json v =>
    match v with
    | .obj fs =>
      match lookupLast fs "messages" with
      | some (.arr xs) => some xs
      | _ => none
    | _ => none
  | .html _ => none

/-! ### Substring occurrence (for "the error message references the field") -/

/-- `startsWithList hay needle`: `needle` is a prefix of `hay`. -/
def startsWithList (hay needle : List Char) : Bool :=
  match needle, hay with
  | [], _ => true
  | _ :: _, [] => false
  | d :: ds, c :: cs => c = d && startsWithList cs ds

/-- `mentionsChars hay needle`: `needle` occurs contiguously in `hay`. -/
def mentionsChars : List Char → List Char → Bool
  | [], needle => needle.isEmpty
  | hay@(_ :: rest), needle => startsWithList hay needle || mentionsChars rest needle

/-- `msg` contains `field` as a contiguous substring. -/
def mentions (msg field : String) : Bool :=
  mentionsChars msg.data field.data

/-! ### The client (`time_client.py`) -/

/-- What the client sees of an HTTP exchange: the response's status code,
its raw text (interpolated into error messages), and its parsed JSON body
(`res.json()`). -/
structure HttpReply where
  status_code : Nat
  text : String
  jsonBody : JValue

/-- The client's discovery step (module level in `time_client.py`): raises
unless the status code is exactly 200, otherwise yields the parsed agent
card. `Except.error` carries the exception's message string. -/
def discovery (res : HttpReply) : Except String JValue :=
  if res.status_code ≠ 200 then
    .error ("Failed to discover agent: " ++ toString res.status_code ++ " " ++ res.text)
  else
    .ok res.jsonBody

/-- The TaskRequest payload `send_task` constructs from a task id and a
plain-text message. -/
def sendTaskPayload (task_id message : String) : JValue :=
  .obj [("id", .str task_id),
        ("message", .obj [("role", .str "user"),
                          ("parts", .arr [.obj [("text", .str message)]]),
                          ("metadata", .obj [])])]

/-- The client's `send_task`, as a function of the response the POST of
`sendTaskPayload` came back with: returns the parsed body on a 200,
raises on every other status code. -/
def send_task (_task_id _message : String) (response : HttpReply) : Except String JValue :=
  if response.status_code = 200 then
    .ok response.jsonBody
  else
    .error ("Failed to send task: " ++ toString response.status_code ++ " " ++ response.text)

/-! ### The weather tool (`google_adk/agent_team/weather_agent.py`) -/

/-- The dictionary `get_weather` returns: a `status` key, plus `report`
on success or `error_message` on error. -/
structure WeatherDict where
  status : String
  report : Option String := none
  error_message : Option String := none
deriving DecidableEq

/-- `city.lower().replace(" ", "")` — basic normalization, character by
character: lower-case every character and drop the spaces (replacing every
occurrence of the one-character pattern `" "` by `""` is exactly deletion
of the space characters; `lower` is modelled by ASCII lowercasing, which
agrees with Python's on the city names under study). -/
def normalizeCity (city : String) : String :=
  String.mk ((city.data.map Char.toLower).filter (fun c => c ≠ ' '))

/-- The mock weather data of `get_weather`. -/
def mock_weather_db : List (String × WeatherDict) :=
  [("newyork", ⟨"success", some "The weather in New York is sunny with a temperature of 25°C.", none⟩),
   ("london", ⟨"success", some "It's cloudy in London with a temperature of 15°C.", none⟩),
   ("tokyo", ⟨"success", some "Tokyo is experiencing light rain and a temperature of 18°C.", none⟩)]

/-- `get_weather(city)`: canned report when the normalized city is a key
of the mock database, error sentinel otherwise. -/
def get_weather (city : String) : WeatherDict :=
  match mock_weather_db.lookup (normalizeCity city) with
  | some r => r
  | none => ⟨"error", none, some ("Sorry, I don't have weather information for '" ++ city ++ "'.")⟩

/-! ### Further accessors and the timestamp pattern -/

/-- Field access on a message (or any JSON object). -/
def jfield (v : JValue) (k : String) : Option JValue :=
  match v with
  | .obj fs => lookupLast fs k
  | _ => none

/-- The first element of a response body's `messages` list, when present. -/
def firstMessage (b : RespBody) : Option JValue :=
  match bodyMessages b with
  | some (m :: _) => some m
  | _ => none

/-- The anchored pattern of the spec,
`^\d\x7b4\x7d-\d\x7b2\x7d-\d\x7b2\x7d \d\x7b2\x7d:\d\x7b2\x7d:\d\x7b2\x7d$`:
exactly nineteen characters, digits and the literal separators
`-`, `-`, space, `:`, `:` at their positions. -/
def matchesTimestampPattern (s : String) : Bool :=
  match s.data with
  | [y1, y2, y3, y4, s1, mo1, mo2, s2, d1, d2, s3, h1, h2, s4, mi1, mi2, s5, e1, e2] =>
    y1.isDigit && y2.isDigit && y3.isDigit && y4.isDigit && s1 = '-' &&
    mo1.isDigit && mo2.isDigit && s2 = '-' && d1.isDigit && d2.isDigit &&
    s3 = ' ' && h1.isDigit && h2.isDigit && s4 = ':' && mi1.isDigit && mi2.isDigit &&
    s5 = ':' && e1.isDigit && e2.isDigit
  | _ => false

/-- Whether a client call raised (`Except.error`). -/
def raisesClientError (r : Except String JValue) : Bool :=
  match r with
  | .ok _ => false
  | .error _ => true

/-! ### Sample concrete inputs (used by witnesses and counterexamples) -/

/-- The message object of the end-to-end scenario
`{role: "user", parts: [{text: "hello"}], metadata: {}}`. -/
def sampleMsg : JValue :=
  .obj [("role", .str "user"),
        ("parts", .arr [.obj [("text", .str "hello")]]),
        ("metadata", .obj [])]

/-- The TaskRequest body `{id: "t1", message: sampleMsg}`. -/
def sampleReq : JValue :=
  .obj [("id", .str "t1"), ("message", sampleMsg)]

/-- A second valid TaskRequest with the same id but a different message
(one that mentions a timezone). -/
def sampleMsgTz : JValue :=
  .obj [("role", .str "user"),
        ("parts", .arr [.obj [("text", .str "What time is it in Tokyo?")]]),
        ("metadata", .obj [("tz", .str "Asia/Tokyo")])]

/-- The TaskRequest body `{id: "t1", message: sampleMsgTz}`. -/
def sampleReqTz : JValue :=
  .obj [("id", .str "t1"), ("message", sampleMsgTz)]

/-- A parseable body whose `message.parts` is the empty list. -/
def emptyPartsReq : JValue :=
  .obj [("id", .str "t1"),
        ("message", .obj [("role", .str "user"),
                          ("parts", .arr []),
                          ("metadata", .obj [])])]

/-- A sample clock value: 2026-10-12 09:05:30. -/
def sampleNow : DateTime := ⟨2026, 10, 12, 9, 5, 30⟩

/-! ### Helper lemmas -/

/-- Successful extraction determines the `id` and `message` lookups. -/
lemma extract_ok_fields (data tid msg txt : JValue)
    (h : extractTaskFields data = .ok (tid, msg, txt)) :
    pyGetStr data "id" = .ok tid ∧ pyGetStr data "message" = .ok msg := by
  unfold extractTaskFields at h
  cases h1 : pyGetStr data "id" <;> rw [h1] at h <;> try simp at h
  cases h2 : pyGetStr data "message" <;> rw [h2] at h <;> try simp at h
  cases h3 : pyGetStr _ "parts" <;> rw [h3] at h <;> try simp at h
  cases h4 : pyGetIdx _ 0 <;> rw [h4] at h <;> try simp at h
  cases h5 : pyGetStr _ "text" <;> rw [h5] at h <;> try simp at h
  obtain ⟨ha, hb, -⟩ := h
  subst ha; subst hb
  exact ⟨rfl, rfl⟩

/-- On successful extraction `handle_task` answers 200 with the success
envelope. -/
lemma handle_task_ok (data tid msg txt : JValue) (now : DateTime)
    (h : extractTaskFields data = .ok (tid, msg, txt)) :
    handle_task (.json data) now = ⟨200, .json (successEnvelope tid msg now)⟩ := by
  simp [handle_task, h]

/-- On failing extraction `handle_task` answers 400 with the error
envelope carrying the exception text. -/
lemma handle_task_err (data : JValue) (e : PyErr) (now : DateTime)
    (h : extractTaskFields data = .error e) :
    handle_task (.json data) now
      = ⟨400, .json (errorEnvelope ("Invalid task format: " ++ pyErrStr e))⟩ := by
  simp [handle_task, h]

/-- `Nat.digitChar` of a value below ten is a digit character. -/
lemma digitChar_isDigit {k : Nat} (h : k < 10) : (Nat.digitChar k).isDigit = true := by
  interval_cases k <;> decide

/-- `Nat.digitChar` of `n % 10` is a digit character. -/
lemma digitChar_mod_isDigit (n : Nat) : (Nat.digitChar (n % 10)).isDigit = true :=
  digitChar_isDigit (Nat.mod_lt _ (by norm_num))

/-- The formatted clock always matches the anchored timestamp pattern. -/
lemma strftime_matchesPattern (t : DateTime) :
    matchesTimestampPattern (strftimeYmdHMS t) = true := by
  simp only [strftimeYmdHMS, fourDigits, twoDigits, List.cons_append, List.nil_append]
  simp [matchesTimestampPattern, digitChar_mod_isDigit]

/-- A list is a prefix of itself followed by anything. -/
lemma startsWithList_self_append (l rest : List Char) :
    startsWithList (l ++ rest) l = true := by
  induction l with
  | nil => simp [startsWithList]
  | cons c cs ih => simp [startsWithList, ih]

/-- A prefix occurrence is an occurrence. -/
lemma mentionsChars_of_startsWith (hay needle : List Char)
    (h : startsWithList hay needle = true) : mentionsChars hay needle = true := by
  cases hay with
  | nil =>
    cases needle with
    | nil => simp [mentionsChars]
    | cons d ds => simp [startsWithList] at h
  | cons c cs => simp [mentionsChars, h]

/-- Occurrence is stable under extending the haystack on the left. -/
lemma mentionsChars_cons (c : Char) (cs needle : List Char)
    (h : mentionsChars cs needle = true) : mentionsChars (c :: cs) needle = true := by
  simp [mentionsChars, h]

/-- `mid` occurs in `pre ++ (mid ++ post)`. -/
lemma mentionsChars_mid (pre mid post : List Char) :
    mentionsChars (pre ++ (mid ++ post)) mid = true := by
  induction pre with
  | nil => exact mentionsChars_of_startsWith _ _ (startsWithList_self_append mid post)
  | cons c cs ih => exact mentionsChars_cons _ _ _ ih

/-- The rendered `Invalid task format: 'k'` message mentions the key `k`. -/
lemma mentions_invalid_key (k : String) :
    mentions ("Invalid task format: " ++ pyErrStr (.keyError k)) k = true := by
  have h := mentionsChars_mid ("Invalid task format: ".data ++ "'".data) k.data "'".data
  simp only [mentions, pyErrStr, String.data_append, List.append_assoc] at h ⊢
  exact h

/-! ## Claim theorems -/

/-- Claim C1: for every TaskRequest body the task endpoint accepts as valid
(parseable, with `id` and `message.parts[0].text` present), the returned
TaskResponse's `id` field equals the request's `id` field. -/
theorem C1_response_id_echoes_request_id (data tid msg txt : JValue) (now : DateTime)
    (h : extractTaskFields data = .ok (tid, msg, txt)) :
    pyGetStr data "id" = .ok tid ∧
    (handle_task (.json data) now).code = 200 ∧
    bodyIdField (handle_task (.json data) now).body = some tid := by
  obtain ⟨hid, -⟩ := extract_ok_fields data tid msg txt h
  rw [handle_task_ok data tid msg txt now h]
  refine ⟨hid, rfl, ?_⟩
  simp [bodyIdField, successEnvelope, lookupLast]

/-- Witness for C1 at the end-to-end sample request. -/
theorem C1_witness :
    extractTaskFields sampleReq = .ok (.str "t1", sampleMsg, .str "hello") ∧
    (pyGetStr sampleReq "id" = .ok (.str "t1") ∧
     (handle_task (.json sampleReq) sampleNow).code = 200 ∧
     bodyIdField (handle_task (.json sampleReq) sampleNow).body = some (.str "t1")) := by
  have h : extractTaskFields sampleReq = .ok (.str "t1", sampleMsg, .str "hello") := rfl
  exact ⟨h, C1_response_id_echoes_request_id sampleReq (.str "t1") sampleMsg (.str "hello") sampleNow h⟩

/-- Claim C2: for every valid TaskRequest body, the first element of the
success response's `messages` list is the submitted `message` object
verbatim. -/
theorem C2_messages_head_is_submitted_message (data tid msg txt : JValue) (now : DateTime)
    (h : extractTaskFields data = .ok (tid, msg, txt)) :
    pyGetStr data "message" = .ok msg ∧
    firstMessage (handle_task (.json data) now).body = some msg := by
  obtain ⟨-, hmsg⟩ := extract_ok_fields data tid msg txt h
  rw [handle_task_ok data tid msg txt now h]
  refine ⟨hmsg, ?_⟩
  simp [firstMessage, bodyMessages, successEnvelope, lookupLast]

/-- Witness for C2 at the end-to-end sample request. -/
theorem C2_witness :
    extractTaskFields sampleReq = .ok (.str "t1", sampleMsg, .str "hello") ∧
    (pyGetStr sampleReq "message" = .ok sampleMsg ∧
     firstMessage (handle_task (.json sampleReq) sampleNow).body = some sampleMsg) := by
  have h : extractTaskFields sampleReq = .ok (.str "t1", sampleMsg, .str "hello") := rfl
  exact ⟨h, C2_messages_head_is_submitted_message sampleReq (.str "t1") sampleMsg (.str "hello") sampleNow h⟩

/-- Claim C10: for every valid TaskRequest, the success response's
`messages` list has exactly two elements — the echoed original followed by
one agent reply with role `agent`, exactly one part, and empty metadata. -/
theorem C10_messages_shape (data tid msg txt : JValue) (now : DateTime)
    (h : extractTaskFields data = .ok (tid, msg, txt)) :
    bodyMessages (handle_task (.json data) now).body = some [msg, agentReplyMsg now] ∧
    (bodyMessages (handle_task (.json data) now).body).map List.length = some 2 ∧
    jfield (agentReplyMsg now) "role" = some (.str "agent") ∧
    jfield (agentReplyMsg now) "parts" = some (.arr [.obj [("text", .str (replyText now))]]) ∧
    jfield (agentReplyMsg now) "metadata" = some (.obj []) := by
  rw [handle_task_ok data tid msg txt now h]
  refine ⟨?_, ?_, ?_, ?_, ?_⟩ <;>
    simp [bodyMessages, successEnvelope, jfield, agentReplyMsg, lookupLast]

/-- Witness for C10 at the end-to-end sample request. -/
theorem C10_witness :
    extractTaskFields sampleReq = .ok (.str "t1", sampleMsg, .str "hello") ∧
    (bodyMessages (handle_task (.json sampleReq) sampleNow).body
       = some [sampleMsg, agentReplyMsg sampleNow] ∧
     (bodyMessages (handle_task (.json sampleReq) sampleNow).body).map List.length = some 2 ∧
     jfield (agentReplyMsg sampleNow) "role" = some (.str "agent") ∧
     jfield (agentReplyMsg sampleNow) "parts"
       = some (.arr [.obj [("text", .str (replyText sampleNow))]]) ∧
     jfield (agentReplyMsg sampleNow) "metadata" = some (.obj [])) := by
  have h : extractTaskFields sampleReq = .ok (.str "t1", sampleMsg, .str "hello") := rfl
  exact ⟨h, C10_messages_shape sampleReq (.str "t1") sampleMsg (.str "hello") sampleNow h⟩

/-- Counterexample to claim C3 as stated: at the sample request and the
clock 2026-10-12 09:05:30, the agent reply's part text is
`Current time is: 2026-10-12 09:05:30`, which does **not** match the
anchored pattern `^\d\x7b4\x7d-\d\x7b2\x7d-\d\x7b2\x7d \d\x7b2\x7d:\d\x7b2\x7d:\d\x7b2\x7d$`
(the code prefixes the timestamp with `Current time is: `). -/
theorem C3_counterexample :
    (handle_task (.json sampleReq) sampleNow).code = 200 ∧
    bodyMessages (handle_task (.json sampleReq) sampleNow).body
      = some [sampleMsg, agentReplyMsg sampleNow] ∧
    jfield (agentReplyMsg sampleNow) "parts"
      = some (.arr [.obj [("text", .str "Current time is: 2026-10-12 09:05:30")]]) ∧
    matchesTimestampPattern "Current time is: 2026-10-12 09:05:30" = false := by
  exact ⟨rfl, rfl, rfl, rfl⟩

/-- Claim C3 amended: for every valid TaskRequest the agent reply has role
`agent` and a single part whose text is `Current time is: ` followed by
the wall-clock timestamp formatted `YYYY-MM-DD HH:MM:SS`; the timestamp
itself (but not the full reply text) matches the anchored pattern. -/
theorem C3_reply_is_prefixed_timestamp (data tid msg txt : JValue) (now : DateTime)
    (h : extractTaskFields data = .ok (tid, msg, txt)) :
    bodyMessages (handle_task (.json data) now).body = some [msg, agentReplyMsg now] ∧
    jfield (agentReplyMsg now) "role" = some (.str "agent") ∧
    jfield (agentReplyMsg now) "parts"
      = some (.arr [.obj [("text", .str ("Current time is: " ++ strftimeYmdHMS now))]]) ∧
    matchesTimestampPattern (strftimeYmdHMS now) = true := by
  rw [handle_task_ok data tid msg txt now h]
  refine ⟨?_, ?_, ?_, strftime_matchesPattern now⟩ <;>
    simp [bodyMessages, successEnvelope, jfield, agentReplyMsg, replyText, lookupLast]

/-- Witness for the amended C3 at the end-to-end sample request. -/
theorem C3_witness :
    extractTaskFields sampleReq = .ok (.str "t1", sampleMsg, .str "hello") ∧
    (bodyMessages (handle_task (.json sampleReq) sampleNow).body
       = some [sampleMsg, agentReplyMsg sampleNow] ∧
     jfield (agentReplyMsg sampleNow) "role" = some (.str "agent") ∧
     jfield (agentReplyMsg sampleNow) "parts"
       = some (.arr [.obj [("text", .str ("Current time is: " ++ strftimeYmdHMS sampleNow))]]) ∧
     matchesTimestampPattern (strftimeYmdHMS sampleNow) = true) := by
  have h : extractTaskFields sampleReq = .ok (.str "t1", sampleMsg, .str "hello") := rfl
  exact ⟨h, C3_reply_is_prefixed_timestamp sampleReq (.str "t1") sampleMsg (.str "hello") sampleNow h⟩

/-- Claim C7: the reply ignores the user message's content — two valid
TaskRequests with the same id handled at the same clock instant get
success responses that agree on code, status, id, and on the appended
agent reply (the second and last message); they differ at most in the
echoed first message. -/
theorem C7_reply_ignores_message_content (d1 d2 tid m1 m2 t1 t2 : JValue) (now : DateTime)
    (h1 : extractTaskFields d1 = .ok (tid, m1, t1))
    (h2 : extractTaskFields d2 = .ok (tid, m2, t2)) :
    (handle_task (.json d1) now).code = (handle_task (.json d2) now).code ∧
    bodyStatusField (handle_task (.json d1) now).body
      = bodyStatusField (handle_task (.json d2) now).body ∧
    bodyIdField (handle_task (.json d1) now).body
      = bodyIdField (handle_task (.json d2) now).body ∧
    bodyMessages (handle_task (.json d1) now).body = some [m1, agentReplyMsg now] ∧
    bodyMessages (handle_task (.json d2) now).body = some [m2, agentReplyMsg now] := by
  rw [handle_task_ok d1 tid m1 t1 now h1, handle_task_ok d2 tid m2 t2 now h2]
  refine ⟨rfl, rfl, ?_, ?_, ?_⟩ <;>
    simp [bodyIdField, bodyMessages, successEnvelope, lookupLast]

/-- Witness for C7: the sample request and a same-id request that mentions
a timezone get identical agent replies. -/
theorem C7_witness :
    extractTaskFields sampleReq = .ok (.str "t1", sampleMsg, .str "hello") ∧
    extractTaskFields sampleReqTz
      = .ok (.str "t1", sampleMsgTz, .str "What time is it in Tokyo?") ∧
    ((handle_task (.json sampleReq) sampleNow).code
       = (handle_task (.json sampleReqTz) sampleNow).code ∧
     bodyStatusField (handle_task (.json sampleReq) sampleNow).body
       = bodyStatusField (handle_task (.json sampleReqTz) sampleNow).body ∧
     bodyIdField (handle_task (.json sampleReq) sampleNow).body
       = bodyIdField (handle_task (.json sampleReqTz) sampleNow).body ∧
     bodyMessages (handle_task (.json sampleReq) sampleNow).body
       = some [sampleMsg, agentReplyMsg sampleNow] ∧
     bodyMessages (handle_task (.json sampleReqTz) sampleNow).body
       = some [sampleMsgTz, agentReplyMsg sampleNow]) := by
  have h1 : extractTaskFields sampleReq = .ok (.str "t1", sampleMsg, .str "hello") := rfl
  have h2 : extractTaskFields sampleReqTz
      = .ok (.str "t1", sampleMsgTz, .str "What time is it in Tokyo?") := rfl
  exact ⟨h1, h2, C7_reply_ignores_message_content sampleReq sampleReqTz (.str "t1")
    sampleMsg sampleMsgTz (.str "hello") (.str "What time is it in Tokyo?") sampleNow h1 h2⟩

/-- Counterexample to claim C4 as stated: for the parseable body
`{id: "t1", message: {role: "user", parts: [], metadata: {}}}` (empty
`parts` list) the endpoint does return 400 with status `error`, but the
human-readable message is Python's `IndexError` text
`list index out of range`, which references no field path — not `parts`,
not `message`, not `0`. -/
theorem C4_counterexample :
    handle_task (.json emptyPartsReq) sampleNow
      = ⟨400, .json (errorEnvelope "Invalid task format: list index out of range")⟩ ∧
    bodyStatusField (handle_task (.json emptyPartsReq) sampleNow).body = some (.str "error") ∧
    bodyMessageField (handle_task (.json emptyPartsReq) sampleNow).body
      = some (.str "Invalid task format: list index out of range") ∧
    mentions "Invalid task format: list index out of range" "parts" = false ∧
    mentions "Invalid task format: list index out of range" "message" = false ∧
    mentions "Invalid task format: list index out of range" "0" = false := by
  exact ⟨rfl, rfl, rfl, rfl, rfl, rfl⟩

/-- Claim C4 amended: a parseable non-null body whose field extraction
fails gets a 400 response with status `error` and message
`Invalid task format: ` followed by the exception text; that text names
the offending key when the failure is a missing dict key (e.g. a body
missing `id`), but for an empty `parts` list it is the bare
`list index out of range` and for wrong-shaped values a type description,
neither of which is a field path. -/
theorem C4_invalid_format_behavior (data : JValue) (e : PyErr) (now : DateTime)
    (h : extractTaskFields data = .error e) :
    (handle_task (.json data) now).code = 400 ∧
    bodyStatusField (handle_task (.json data) now).body = some (.str "error") ∧
    bodyMessageField (handle_task (.json data) now).body
      = some (.str ("Invalid task format: " ++ pyErrStr e)) ∧
    (∀ k, e = .keyError k → mentions ("Invalid task format: " ++ pyErrStr e) k = true) := by
  rw [handle_task_err data e now h]
  refine ⟨rfl, ?_, ?_, ?_⟩
  · simp [bodyStatusField, errorEnvelope, lookupLast]
  · simp [bodyMessageField, errorEnvelope, lookupLast]
  · rintro k rfl
    exact mentions_invalid_key k

/-- Witness for the amended C4: a body missing `id` yields 400, status
`error`, and a message mentioning `id`. -/
theorem C4_witness :
    extractTaskFields (.obj [("message", sampleMsg)]) = .error (.keyError "id") ∧
    ((handle_task (.json (.obj [("message", sampleMsg)])) sampleNow).code = 400 ∧
     bodyStatusField (handle_task (.json (.obj [("message", sampleMsg)])) sampleNow).body
       = some (.str "error") ∧
     bodyMessageField (handle_task (.json (.obj [("message", sampleMsg)])) sampleNow).body
       = some (.str ("Invalid task format: " ++ pyErrStr (.keyError "id"))) ∧
     mentions ("Invalid task format: " ++ pyErrStr (.keyError "id")) "id" = true) := by
  have h : extractTaskFields (.obj [("message", sampleMsg)]) = .error (.keyError "id") := rfl
  obtain ⟨a, b, c, d⟩ := C4_invalid_format_behavior (.obj [("message", sampleMsg)]) (.keyError "id") sampleNow h
  exact ⟨h, a, b, c, d "id" rfl⟩

/-- Counterexample to claim C5 as stated: a request with a JSON
Content-Type whose bytes fail to parse is answered with status code 400,
but the body is Flask's default HTML error page — it carries no
`status: error` field and no structured message field. -/
theorem C5_counterexample :
    (handle_task .badJson sampleNow).code = 400 ∧
    (handle_task .badJson sampleNow).body = .html flaskBadRequestPage ∧
    bodyStatusField (handle_task .badJson sampleNow).body = none ∧
    bodyMessageField (handle_task .badJson sampleNow).body = none := by
  exact ⟨rfl, rfl, rfl, rfl⟩

/-- Claim C5 amended: every request is answered with 200 or 400 — never a
500; a request whose Content-Type is not JSON gets the JSON envelope
`{status: error, message: "Invalid JSON format"}`, a body parsing to
`null` gets `{status: error, message: "Request body is empty"}`, but a
JSON-typed body that fails to parse gets Flask's default 400 HTML error
page, which carries no `status` field. -/
theorem C5_bad_body_responses (b : ReqBody) (now : DateTime) :
    ((handle_task b now).code = 200 ∨ (handle_task b now).code = 400) ∧
    handle_task .notJson now = ⟨400, .json (errorEnvelope "Invalid JSON format")⟩ ∧
    handle_task .jsonNull now = ⟨400, .json (errorEnvelope "Request body is empty")⟩ ∧
    handle_task .badJson now = ⟨400, .html flaskBadRequestPage⟩ ∧
    bodyStatusField (handle_task .notJson now).body = some (.str "error") ∧
    bodyMessageField (handle_task .notJson now).body = some (.str "Invalid JSON format") ∧
    bodyStatusField (handle_task .jsonNull now).body = some (.str "error") ∧
    bodyMessageField (handle_task .jsonNull now).body = some (.str "Request body is empty") := by
  refine ⟨?_, rfl, rfl, rfl, rfl, rfl, rfl, rfl⟩
  cases b with
  | notJson => exact Or.inr rfl
  | badJson => exact Or.inr rfl
  | jsonNull => exact Or.inr rfl
  | json data =>
    cases hx : extractTaskFields data with
    | error e => exact Or.inr (by simp [handle_task, hx])
    | ok triple =>
      obtain ⟨tid, msg, txt⟩ := triple
      exact Or.inl (by simp [handle_task, hx])

/-- Claim C6: the discovery endpoint is a constant — every call returns
200 with the same fixed AgentDescriptor (name, description, url,
capabilities with streaming and pushNotifications both false, version),
and any two calls render byte-identical content. -/
theorem C6_discovery_constant_descriptor :
    (∀ c1 c2 : Nat, agent_card c1 = agent_card c2 ∧
      renderResponse (agent_card c1) = renderResponse (agent_card c2)) ∧
    (agent_card 0).code = 200 ∧
    (agent_card 0).body = .json agentInfo ∧
    jfield agentInfo "name" = some (.str "Time Teller") ∧
    jfield agentInfo "description"
      = some (.str "An agent that tells the current time based on the provided timezone.") ∧
    jfield agentInfo "url" = some (.str "http://localhost:5000/tell_time") ∧
    jfield agentInfo "capabilities"
      = some (.obj [("streaming", .bool false), ("pushNotifications", .bool false)]) ∧
    jfield agentInfo "version" = some (.str "1.0.0") := by
  exact ⟨fun c1 c2 => ⟨rfl, rfl⟩, rfl, rfl, rfl, rfl, rfl, rfl, rfl⟩

/-- Counterexample to claim C8 as stated: a 201 response is a 2xx status,
yet both the discovery step and `send_task` raise on it — the code tests
`status_code != 200`, not "non-2xx". -/
theorem C8_counterexample :
    (200 ≤ 201 ∧ 201 ≤ 299) ∧
    discovery ⟨201, "Created", .null⟩
      = .error ("Failed to discover agent: " ++ toString 201 ++ " " ++ "Created") ∧
    send_task "t1" "hello" ⟨201, "Created", .null⟩
      = .error ("Failed to send task: " ++ toString 201 ++ " " ++ "Created") := by
  exact ⟨⟨by norm_num, by norm_num⟩, rfl, rfl⟩

/-- Claim C8 amended: the discovery step raises a fatal
`Failed to discover agent` error exactly when the response status is not
exactly 200 (so also on other 2xx codes), `send_task` raises a fatal
`Failed to send task` error exactly when the submission status is not
exactly 200, and on a 200 each returns the parsed response body; each
performs its single HTTP call with no retry. -/
theorem C8_client_raises_iff_status_ne_200 (res : HttpReply) (tid m : String) :
    (raisesClientError (discovery res) = true ↔ res.status_code ≠ 200) ∧
    (raisesClientError (send_task tid m res) = true ↔ res.status_code ≠ 200) ∧
    (res.status_code = 200 → discovery res = .ok res.jsonBody) ∧
    (res.status_code = 200 → send_task tid m res = .ok res.jsonBody) ∧
    (res.status_code ≠ 200 →
      discovery res
        = .error ("Failed to discover agent: " ++ toString res.status_code ++ " " ++ res.text)) ∧
    (res.status_code ≠ 200 →
      send_task tid m res
        = .error ("Failed to send task: " ++ toString res.status_code ++ " " ++ res.text)) := by
  by_cases h : res.status_code = 200 <;>
    simp [discovery, send_task, raisesClientError, h]

/-- Witness for the amended C8 at a 200 and a 404 response. -/
theorem C8_witness :
    discovery ⟨200, "OK", agentInfo⟩ = .ok agentInfo ∧
    send_task "t1" "hello" ⟨200, "OK", .null⟩ = .ok .null ∧
    discovery ⟨404, "not found", .null⟩
      = .error ("Failed to discover agent: " ++ toString 404 ++ " " ++ "not found") ∧
    send_task "t1" "hello" ⟨404, "not found", .null⟩
      = .error ("Failed to send task: " ++ toString 404 ++ " " ++ "not found") := by
  have A := C8_client_raises_iff_status_ne_200 ⟨200, "OK", agentInfo⟩ "t1" "hello"
  have B := C8_client_raises_iff_status_ne_200 ⟨200, "OK", .null⟩ "t1" "hello"
  have C := C8_client_raises_iff_status_ne_200 ⟨404, "not found", .null⟩ "t1" "hello"
  exact ⟨A.2.2.1 rfl, B.2.2.2.1 rfl, C.2.2.2.2.1 (by decide), C.2.2.2.2.2 (by decide)⟩

/-- Claim C9: `get_weather` returns status `success` with the canned
report exactly when the city, lower-cased with spaces stripped, is
`newyork`, `london`, or `tokyo`; every other input gets status `error`
with an `error_message` sentinel naming the unknown city. It is a total
function (it never raises). -/
theorem C9_get_weather_canned_mapping (city : String) :
    ((get_weather city).status = "success" ↔
      normalizeCity city ∈ ["newyork", "london", "tokyo"]) ∧
    (normalizeCity city ∈ ["newyork", "london", "tokyo"] →
      mock_weather_db.lookup (normalizeCity city) = some (get_weather city)) ∧
    (normalizeCity city ∉ ["newyork", "london", "tokyo"] →
      get_weather city
        = ⟨"error", none,
           some ("Sorry, I don't have weather information for '" ++ city ++ "'.")⟩) := by
  by_cases h1 : normalizeCity city = "newyork"
  · simp [get_weather, mock_weather_db, List.lookup, beq_iff_eq, h1]
  · by_cases h2 : normalizeCity city = "london"
    · simp [get_weather, mock_weather_db, List.lookup, beq_iff_eq, h1, h2]
    · by_cases h3 : normalizeCity city = "tokyo"
      · simp [get_weather, mock_weather_db, List.lookup, beq_iff_eq, h1, h2, h3]
      · have e1 : (normalizeCity city == "newyork") = false := by simp [h1]
        have e2 : (normalizeCity city == "london") = false := by simp [h2]
        have e3 : (normalizeCity city == "tokyo") = false := by simp [h3]
        simp [get_weather, mock_weather_db, List.lookup, e1, e2, e3, h1, h2, h3]

/-- Witness for C9 at a known city and an unknown city. -/
theorem C9_witness :
    (get_weather "New York").status = "success" ∧
    mock_weather_db.lookup (normalizeCity "New York") = some (get_weather "New York") ∧
    get_weather "Paris"
      = ⟨"error", none,
         some ("Sorry, I don't have weather information for '" ++ "Paris" ++ "'.")⟩ := by
  have A := C9_get_weather_canned_mapping "New York"
  have B := C9_get_weather_canned_mapping "Paris"
  exact ⟨A.1.mpr (by decide), A.2.1 (by decide), B.2.2 (by decide)⟩
